import Mathlib

/-!
# Verification of the RemoteAuth session synchronization module

A shallow embedding of src/src/authStrategies/RemoteAuth.js: the
remote-session authentication strategy that restores a session directory
from an abstract remote store at startup and periodically backs it up.

Filesystem state is modelled as the list of existing paths; external
outcomes (store calls, archiver results, removal retries) are supplied by
an oracle so that every possible success/failure interleaving of one run
is covered.  Each async method of the class becomes a function returning
the new filesystem, a trace of the observable events it performed (in
program order), and its outcome (`Except`, mirroring a resolved or
rejected promise).
-/

deriving instance DecidableEq for Except

namespace RemoteAuthSpec

/-! ## Paths (abstract: `path.join` concatenates with a separator,
`path.resolve` is treated as the identity on the already-absolute test
paths used here) -/

def pathJoin (a b : String) : String := a ++ "/" ++ b

def pathResolve (s : String) : String := s

/-! ## Optional dependency loading (lines 4-12)

`try { var fs = require(..); var unzipper = require(..); var archiver = require(..) }
catch { fs = undefined; unzipper = undefined; archiver = undefined }` —
if any of the three requires throws, the catch clears all three. -/

structure DepsAvail where
  fsOk : Bool
  unzipperOk : Bool
  archiverOk : Bool
deriving DecidableEq

structure DepsLoaded where
  fs : Bool
  unzipper : Bool
  archiver : Bool
deriving DecidableEq

def requireOptionalDeps (a : DepsAvail) : DepsLoaded :=
  if a.fsOk && a.unzipperOk && a.archiverOk then
    { fs := true, unzipper := true, archiver := true }
  else
    { fs := false, unzipper := false, archiver := false }

def allDeps : DepsLoaded := { fs := true, unzipper := true, archiver := true }

/-! ## Constructor (lines 28-48)

JS truthiness: an absent or empty-string `clientId` is falsy; an absent or
zero `backupSyncIntervalMs` is falsy. -/

structure RemoteAuthOptions where
  clientId : Option String
  dataPath : Option String
  storePresent : Bool
  backupSyncIntervalMs : Option Nat
  rmMaxRetries : Option Nat
deriving DecidableEq

def truthyStr : Option String → Bool
  | none => false
  | some s => !(s == "")

/-- The test `/^[-_\w]+$/i.test s`: one or more characters, each a letter,
digit, underscore or hyphen. -/
def idRegexTest (s : String) : Bool :=
  !(s == "") && s.all (fun c => c.isAlphanum || c == '_' || c == '-')

/-- The condition `!backupSyncIntervalMs || backupSyncIntervalMs < 60000`. -/
def intervalInvalid : Option Nat → Bool
  | none => true
  | some n => (n == 0) || decide (n < 60000)

def requiredDirs : List String := ["Default", "IndexedDB", "Local Storage"]

/-- `${this.clientId}` inside a template literal: `undefined` prints as
the string "undefined". -/
def clientIdInterp : Option String → String
  | none => "undefined"
  | some s => s

/-- The fields assigned by a successful constructor run. -/
structure AuthStateCore where
  clientId : Option String
  backupSyncIntervalMs : Nat
  dataPath : String
  tempDir : String
  rmMaxRetries : Nat
deriving DecidableEq

def depsErrMsg : String :=
  "Optional Dependencies [fs-extra, unzipper, archiver] are required to use RemoteAuth. Make sure to run npm install correctly and remove the --no-optional flag"

def clientIdErrMsg : String :=
  "Invalid clientId. Only alphanumeric characters, underscores and hyphens are allowed."

def intervalErrMsg : String :=
  "Invalid backupSyncIntervalMs. Accepts values starting from 60000ms (1 minute)."

def storeErrMsg : String := "Remote database store is required."

def construct (deps : DepsLoaded) (o : RemoteAuthOptions) :
    Except String AuthStateCore :=
  if !deps.fs && !deps.unzipper && !deps.archiver then
    .error depsErrMsg
  else if truthyStr o.clientId && !idRegexTest (o.clientId.getD "") then
    .error clientIdErrMsg
  else if intervalInvalid o.backupSyncIntervalMs then
    .error intervalErrMsg
  else if !o.storePresent then
    .error storeErrMsg
  else
    let dataPath := pathResolve
      (match o.dataPath with
       | none => "./.wwebjs_auth/"
       | some s => if s == "" then "./.wwebjs_auth/" else s)
    .ok
      { clientId := o.clientId
        backupSyncIntervalMs := o.backupSyncIntervalMs.getD 0
        dataPath := dataPath
        tempDir := dataPath ++ "/wwebjs_temp_session_" ++ clientIdInterp o.clientId
        rmMaxRetries := o.rmMaxRetries.getD 4 }

def isOkE {α : Type} : Except String α → Bool
  | .ok _ => true
  | .error _ => false

/-- Options with a store, a minimal valid interval, and a given clientId. -/
def mkOpts (cid : Option String) : RemoteAuthOptions :=
  { clientId := cid
    dataPath := none
    storePresent := true
    backupSyncIntervalMs := some 60000
    rmMaxRetries := none }

/-! ## Session naming (beforeBrowserInitialized, lines 50-68) -/

def sessionDirName (clientId : Option String) : String :=
  if truthyStr clientId then "RemoteAuth-" ++ clientId.getD "" else "RemoteAuth"

/-- The instance state once `beforeBrowserInitialized` has derived the
session name and the user-data directory. -/
structure AuthState where
  dataPath : String
  tempDir : String
  sessionName : String
  userDataDir : String
  rmMaxRetries : Nat
  backupSyncIntervalMs : Nat
deriving DecidableEq

def initAuthState (c : AuthStateCore) : AuthState :=
  let name := sessionDirName c.clientId
  { dataPath := c.dataPath
    tempDir := c.tempDir
    sessionName := name
    userDataDir := pathJoin c.dataPath name
    rmMaxRetries := c.rmMaxRetries
    backupSyncIntervalMs := c.backupSyncIntervalMs }

/-- `path.join(this.dataPath, sessionName + ".zip")`: where
`compressSession` writes the archive and `extractRemoteSession` asks the
store to materialize it (lines 128 and 152). -/
def archivePath (a : AuthState) : String :=
  pathJoin a.dataPath (a.sessionName ++ ".zip")

/-- `path.join(this.dataPath, this.sessionName)`: the argument actually
passed to `store.save` (line 112). -/
def saveArg (a : AuthState) : String := pathJoin a.dataPath a.sessionName

/-! ## Observable events, filesystem state and the outcome oracle -/

inductive Event where
  | storeQuery (session : String) (result : Bool)
  | storeSave (session : String)
  | storeExtract (session : String) (path : String)
  | storeDelete (session : String)
  | fsRm (p : String) (maxRetries : Nat)
  | fsUnlink (p : String)
  | fsMkdir (p : String)
  | compress (out : String)
  | decompress (archive : String) (dest : String)
  | delayMs (ms : Nat)
  | emitSaved
  | setIntervalMs (ms : Nat)
deriving DecidableEq

/-- The filesystem, as the list of paths that currently exist. -/
abbrev FsState := List String

def fsAdd (fs : FsState) (p : String) : FsState :=
  if p ∈ fs then fs else p :: fs

/-- `q` lies inside the tree rooted at `p`. -/
def pathUnder (p q : String) : Bool :=
  (q == p) || (p ++ "/").data.isPrefixOf q.data

/-- `fs.promises.rm(p, . recursive: true, force: true .)`. -/
def fsRemoveTree (fs : FsState) (p : String) : FsState :=
  fs.filter (fun q => !(pathUnder p q))

/-- `fs.promises.unlink(p)`. -/
def fsRemoveFile (fs : FsState) (p : String) : FsState :=
  fs.filter (fun q => !(q == p))

/-- `fs.promises.access(p)` resolves iff the path exists (lines 195-202). -/
def isValidPath (fs : FsState) (p : String) : Bool := decide (p ∈ fs)

/-- Outcomes of the external/fallible steps of one run: store replies and
whether each fallible filesystem/archiver operation succeeds. -/
structure Oracle where
  sessionExists : Bool
  compressOk : Bool
  saveOk : Bool
  unlinkOk : Bool
  rmTempOk : Bool
  rmUserOk : Bool
  extractOk : Bool
  uncompressOk : Bool
deriving DecidableEq

/-- Result of one async method: new filesystem, event trace in program
order, and the resolved/rejected outcome. -/
structure CycleResult where
  fs : FsState
  trace : List Event
  outcome : Except String Unit
deriving DecidableEq

/-! ## copyByRequiredDirs (lines 182-193) and compressSession (150-167) -/

/-- `mkdir(tempDir, recursive)` then, for each required dir that exists
under `userDataDir`, a recursive copy into `tempDir`. -/
def copyByRequiredDirsFs (a : AuthState) (fs : FsState) : FsState :=
  requiredDirs.foldl
    (fun s d =>
      if isValidPath s (pathJoin a.userDataDir d) then
        fsAdd s (pathJoin a.tempDir d)
      else s)
    (fsAdd fs a.tempDir)

structure CompressResult where
  fs : FsState
  trace : List Event
  value : Except String String
deriving DecidableEq

/-- `compressSession`: stage the required dirs, then archive the staging
directory to `archivePath`; resolves with the archive's path. -/
def compressSession (a : AuthState) (fs : FsState) (o : Oracle) :
    CompressResult :=
  let fs1 := copyByRequiredDirsFs a fs
  if o.compressOk then
    { fs := fsAdd fs1 (archivePath a)
      trace := [Event.compress (archivePath a)]
      value := .ok (archivePath a) }
  else
    { fs := fs1, trace := [], value := .error "archive error" }

/-- A forced recursive removal whose failure is swallowed by `.catch`. -/
def rmOp (fs : FsState) (p : String) (retries : Nat) (ok : Bool) :
    FsState × Event :=
  (if ok then fsRemoveTree fs p else fs, Event.fsRm p retries)

def unlinkOp (fs : FsState) (p : String) (ok : Bool) : FsState × Event :=
  (if ok then fsRemoveFile fs p else fs, Event.fsUnlink p)

/-! ## storeRemoteSession (lines 104-124): one backup cycle -/

def storeRemoteSession (a : AuthState) (emit : Bool) (fs : FsState)
    (o : Oracle) : CycleResult :=
  if isValidPath fs a.userDataDir then
    let c := compressSession a fs o
    match c.value with
    | .error e =>
      -- finally with compressedSessionPath still undefined: only the
      -- staging directory removal runs, its error swallowed
      let r := rmOp c.fs a.tempDir a.rmMaxRetries o.rmTempOk
      { fs := r.1, trace := c.trace ++ [r.2], outcome := .error e }
    | .ok ap =>
      let emitEvs := if o.saveOk && emit then [Event.emitSaved] else []
      let u := unlinkOp c.fs ap o.unlinkOk
      let r := rmOp u.1 a.tempDir a.rmMaxRetries o.rmTempOk
      { fs := r.1
        trace := c.trace ++ [Event.storeSave (saveArg a)] ++ emitEvs
          ++ [u.2, r.2]
        outcome := if o.saveOk then .ok () else .error "save error" }
  else
    { fs := fs, trace := [], outcome := .ok () }

/-! ## unCompressSession (lines 169-180) and extractRemoteSession (126-143) -/

/-- Stream-extract the archive into `userDataDir`; only on success is the
archive unlinked (and that unlink is not wrapped in a catch). On a failed
extraction the destination is left partially populated and the archive
file remains. -/
def unCompressSession (a : AuthState) (p : String) (fs : FsState)
    (o : Oracle) : CycleResult :=
  if o.uncompressOk then
    let fs1 := fsAdd fs a.userDataDir
    if o.unlinkOk then
      { fs := fsRemoveFile fs1 p
        trace := [Event.decompress p a.userDataDir, Event.fsUnlink p]
        outcome := .ok () }
    else
      { fs := fs1
        trace := [Event.decompress p a.userDataDir, Event.fsUnlink p]
        outcome := .error "unlink error" }
  else
    { fs := fsAdd fs a.userDataDir
      trace := [Event.decompress p a.userDataDir]
      outcome := .error "archive error" }

/-- Recovery: check the local dir, ask the store whether a record exists,
then remove the stale local dir (swallowing errors), then either fetch and
decompress, or create an empty directory. -/
def extractRemoteSession (a : AuthState) (fs : FsState) (o : Oracle) :
    CycleResult :=
  let csp := archivePath a
  let evQ := Event.storeQuery a.sessionName o.sessionExists
  let pathExists := isValidPath fs a.userDataDir
  let fs1 := if pathExists then
      (rmOp fs a.userDataDir a.rmMaxRetries o.rmUserOk).1
    else fs
  let evsRm : List Event := if pathExists then
      [Event.fsRm a.userDataDir a.rmMaxRetries]
    else []
  if o.sessionExists then
    if o.extractOk then
      let r := unCompressSession a csp (fsAdd fs1 csp) o
      { fs := r.fs
        trace := evQ :: evsRm ++ [Event.storeExtract a.sessionName csp]
          ++ r.trace
        outcome := r.outcome }
    else
      { fs := fs1
        trace := evQ :: evsRm ++ [Event.storeExtract a.sessionName csp]
        outcome := .error "extract error" }
  else
    { fs := fsAdd fs1 a.userDataDir
      trace := evQ :: evsRm ++ [Event.fsMkdir a.userDataDir]
      outcome := .ok () }

/-! ## Timers, afterAuthReady (92-102) and destroy (74-76) -/

structure Timers where
  active : List Nat
  nextId : Nat
deriving DecidableEq

def setIntervalOp (t : Timers) : Timers × Nat :=
  ({ active := t.nextId :: t.active, nextId := t.nextId + 1 }, t.nextId)

def clearIntervalOp (t : Timers) : Option Nat → Timers
  | none => t
  | some i => { t with active := t.active.filter (fun j => !(j == i)) }

structure SchedState where
  timers : Timers
  backupSync : Option Nat
deriving DecidableEq

/-- `this.backupSync = setInterval(...)`: registers a fresh recurring
timer and overwrites the stored handle, with no guard against an already
running one. -/
def startBackupSyncStep (s : SchedState) : SchedState :=
  let p := setIntervalOp s.timers
  { timers := p.1, backupSync := some p.2 }

/-- `destroy()`: `clearInterval(this.backupSync)`. -/
def destroyStep (s : SchedState) : SchedState :=
  { s with timers := clearIntervalOp s.timers s.backupSync }

structure ReadyResult where
  fs : FsState
  sched : SchedState
  trace : List Event
  outcome : Except String Unit
deriving DecidableEq

/-- `afterAuthReady`: if the store has no record, wait 60000 ms, run one
emitting backup cycle (a rejection aborts the method before the
scheduler is started), then in the non-aborted paths start the periodic
backup timer with the configured interval. -/
def afterAuthReady (a : AuthState) (fs : FsState) (s : SchedState)
    (o : Oracle) : ReadyResult :=
  let evQ := Event.storeQuery a.sessionName o.sessionExists
  if o.sessionExists then
    { fs := fs
      sched := startBackupSyncStep s
      trace := [evQ, Event.setIntervalMs a.backupSyncIntervalMs]
      outcome := .ok () }
  else
    let r := storeRemoteSession a true fs o
    match r.outcome with
    | .error e =>
      { fs := r.fs
        sched := s
        trace := evQ :: Event.delayMs 60000 :: r.trace
        outcome := .error e }
    | .ok _ =>
      { fs := r.fs
        sched := startBackupSyncStep s
        trace := evQ :: Event.delayMs 60000 ::
          (r.trace ++ [Event.setIntervalMs a.backupSyncIntervalMs])
        outcome := .ok () }

/-! ## Trace-order helpers -/

def isSaveEv : Event → Bool
  | .storeSave _ => true
  | _ => false

def isCleanupEv : Event → Bool
  | .fsUnlink _ => true
  | .fsRm _ _ => true
  | _ => false

def isDelayEv : Event → Bool
  | .delayMs _ => true
  | _ => false

def isEmitEv : Event → Bool
  | .emitSaved => true
  | _ => false

def isQueryEv : Event → Bool
  | .storeQuery _ _ => true
  | _ => false

def isRmEv : Event → Bool
  | .fsRm _ _ => true
  | _ => false

def isExtractEv : Event → Bool
  | .storeExtract _ _ => true
  | _ => false

def isSetIntervalEv : Event → Bool
  | .setIntervalMs _ => true
  | _ => false

/-- Index of the first event satisfying `p`. -/
def firstIdx (p : Event → Bool) : List Event → Option Nat
  | [] => none
  | e :: tr => if p e then some 0 else (firstIdx p tr).map (· + 1)

/-- Some `p`-event occurs, and the first one strictly precedes every
`q`-event (there is a first `q`-event and it comes later). -/
def beforeP (p q : Event → Bool) (tr : List Event) : Bool :=
  match firstIdx p tr, firstIdx q tr with
  | some i, some j => decide (i < j)
  | _, _ => false

/-! ## Content-level model of stage / compress / decompress

For the round-trip property the filesystem view is refined to contents: a
directory maps top-level entry names to the bytes of the subtree they
root (opaque blobs).  `copyByRequiredDirs` copies exactly the required
entries that exist; the archive holds exactly the staging directory's
entries; extraction writes each archive entry into the target. -/

abbrev ContentMap := List (String × Nat)

/-- Write entry `k := v`, overwriting an existing entry of that name. -/
def cmUpsert (m : ContentMap) (k : String) (v : Nat) : ContentMap :=
  if m.any (fun kv => kv.1 == k) then
    m.map (fun kv => if kv.1 == k then (k, v) else kv)
  else m ++ [(k, v)]

/-- `copyByRequiredDirs` on contents: for each required name present in
the session directory, copy its subtree into the staging directory. -/
def stageContents (session temp : ContentMap) : ContentMap :=
  requiredDirs.foldl
    (fun acc d =>
      match session.lookup d with
      | some c => cmUpsert acc d c
      | none => acc)
    temp

/-- `archiver('zip').directory(tempDir, false)`: the archive's entries
are exactly the staging directory's entries. -/
def compressContents (staging : ContentMap) : ContentMap := staging

/-- `unzipper.Extract`: write every archive entry into the target. -/
def decompressContents (archive target : ContentMap) : ContentMap :=
  archive.foldl (fun t kv => cmUpsert t kv.1 kv.2) target

/-! ## Concrete states used by counterexamples and witnesses -/

def demoCore : AuthStateCore :=
  { clientId := some "bot1"
    backupSyncIntervalMs := 60000
    dataPath := "/data"
    tempDir := "/data/wwebjs_temp_session_bot1"
    rmMaxRetries := 4 }

def demoAuth : AuthState := initAuthState demoCore

/-- A filesystem holding the live session directory and one subdir. -/
def demoFs : FsState :=
  ["/data/RemoteAuth-bot1", "/data/RemoteAuth-bot1/Default"]

def oAllOk : Oracle :=
  { sessionExists := true, compressOk := true, saveOk := true
    unlinkOk := true, rmTempOk := true, rmUserOk := true
    extractOk := true, uncompressOk := true }

/-- A record exists but the fetched archive is corrupt. -/
def oBadZip : Oracle :=
  { sessionExists := true, compressOk := true, saveOk := true
    unlinkOk := true, rmTempOk := true, rmUserOk := true
    extractOk := true, uncompressOk := false }

/-- No remote record; everything else succeeds. -/
def oNoRecord : Oracle :=
  { sessionExists := false, compressOk := true, saveOk := true
    unlinkOk := true, rmTempOk := true, rmUserOk := true
    extractOk := true, uncompressOk := true }

/-- No remote record and the first save rejects. -/
def oSaveFail : Oracle :=
  { sessionExists := false, compressOk := true, saveOk := false
    unlinkOk := true, rmTempOk := true, rmUserOk := true
    extractOk := true, uncompressOk := true }

def sched0 : SchedState := { timers := { active := [], nextId := 0 }, backupSync := none }

/-- A session-directory content map holding the three required entries
plus one extra entry that must not survive the round trip. -/
def demoSession : ContentMap :=
  [("Default", 1), ("IndexedDB", 2), ("Local Storage", 3), ("Cache", 9)]

/-! ## Small filesystem lemmas -/

lemma isValidPath_fsAdd (fs : FsState) (p : String) :
    isValidPath (fsAdd fs p) p = true := by
  simp only [isValidPath, fsAdd, decide_eq_true_eq]
  split
  · assumption
  · exact List.mem_cons_self p fs

lemma not_mem_fsRemoveFile (l : FsState) (p : String) :
    p ∉ fsRemoveFile l p := by
  simp [fsRemoveFile, List.mem_filter]

lemma not_mem_filter_of_not_mem {l : FsState} {p : String}
    (h : p ∉ l) (f : String → Bool) : p ∉ l.filter f :=
  fun hm => h (List.mem_filter.mp hm).1

/-! ## Claim theorems -/

/-- C5, counterexample: the empty string is a supplied identifier that
does not match the allowed character set, yet construction succeeds: a
falsy clientId skips the regex validation entirely. -/
theorem empty_clientId_accepted :
    idRegexTest "" = false ∧
    isOkE (construct allDeps (mkOpts (some ""))) = true := by
  decide

/-- C5 (amended): for every non-empty supplied identifier, construction
with a store and a valid interval succeeds exactly when the identifier
matches the allowed character set (letters, digits, underscore, hyphen);
a supplied empty identifier is treated as absent and accepted. -/
theorem clientId_validation (s : String) (h : s ≠ "") :
    isOkE (construct allDeps (mkOpts (some s))) = idRegexTest s := by
  have hb : (s == "") = false := by simp [h]
  by_cases hid : idRegexTest s = true
  · simp [construct, allDeps, mkOpts, truthyStr, hb, hid, intervalInvalid,
      isOkE]
  · have hid' : idRegexTest s = false := by
      simpa using hid
    simp [construct, allDeps, mkOpts, truthyStr, hb, hid', intervalInvalid,
      isOkE]

theorem clientId_validation_witness :
    isOkE (construct allDeps (mkOpts (some "bot1"))) = idRegexTest "bot1" :=
  clientId_validation "bot1" (by decide)

/-- C6 (confirmed): whenever any of the three optional dependencies fails
to load, the require block clears all three and the constructor fails
immediately with the dependency configuration error, for every option
set — the failure is raised by construction itself, never deferred to
first use. -/
theorem missing_deps_fail_at_construction (av : DepsAvail)
    (o : RemoteAuthOptions)
    (h : av.fsOk = false ∨ av.unzipperOk = false ∨ av.archiverOk = false) :
    construct (requireOptionalDeps av) o = .error depsErrMsg := by
  obtain ⟨f, u, ar⟩ := av
  rcases h with h | h | h <;> subst h <;>
    simp [requireOptionalDeps, construct]

theorem missing_deps_fail_at_construction_witness :
    construct
      (requireOptionalDeps
        { fsOk := false, unzipperOk := true, archiverOk := true })
      (mkOpts none) = .error depsErrMsg :=
  missing_deps_fail_at_construction _ _ (Or.inl rfl)

/-- C10 (confirmed): when the local session directory does not exist the
backup cycle returns immediately as a no-op — identical filesystem, an
empty event trace (so no archive creation, no store save, no cleanup),
and a resolved outcome. -/
theorem backup_noop_without_local_dir (a : AuthState) (e : Bool)
    (fs : FsState) (o : Oracle)
    (h : isValidPath fs a.userDataDir = false) :
    storeRemoteSession a e fs o =
      { fs := fs, trace := [], outcome := .ok () } := by
  simp [storeRemoteSession, h]

theorem backup_noop_without_local_dir_witness :
    storeRemoteSession demoAuth true [] oAllOk =
      { fs := [], trace := [], outcome := .ok () } :=
  backup_noop_without_local_dir demoAuth true [] oAllOk (by decide)

/-- C3 (confirmed): in every backup cycle whose compression succeeded,
both the archive unlink and the staging-directory removal appear in the
trace after the save, whatever the save outcome, and the cycle's outcome
is determined solely by the save result — the statement is universal in
the cleanup-failure flags, so cleanup errors are absorbed, never
propagated. -/
theorem cleanup_attempted_and_errors_absorbed (a : AuthState) (e : Bool)
    (fs : FsState) (o : Oracle)
    (hp : isValidPath fs a.userDataDir = true) (hc : o.compressOk = true) :
    Event.fsUnlink (archivePath a) ∈ (storeRemoteSession a e fs o).trace ∧
    Event.fsRm a.tempDir a.rmMaxRetries ∈
      (storeRemoteSession a e fs o).trace ∧
    beforeP isSaveEv isCleanupEv (storeRemoteSession a e fs o).trace =
      true ∧
    (storeRemoteSession a e fs o).outcome =
      (if o.saveOk then Except.ok () else Except.error "save error") := by
  cases hs : o.saveOk <;> cases e <;>
    simp [storeRemoteSession, compressSession, hp, hc, hs, unlinkOp, rmOp,
      beforeP, firstIdx, isSaveEv, isCleanupEv]

theorem cleanup_attempted_and_errors_absorbed_witness :
    Event.fsUnlink (archivePath demoAuth) ∈
      (storeRemoteSession demoAuth true demoFs oSaveFail).trace ∧
    Event.fsRm demoAuth.tempDir demoAuth.rmMaxRetries ∈
      (storeRemoteSession demoAuth true demoFs oSaveFail).trace ∧
    beforeP isSaveEv isCleanupEv
      (storeRemoteSession demoAuth true demoFs oSaveFail).trace = true ∧
    (storeRemoteSession demoAuth true demoFs oSaveFail).outcome =
      (if oSaveFail.saveOk then Except.ok ()
       else Except.error "save error") :=
  cleanup_attempted_and_errors_absorbed demoAuth true demoFs oSaveFail
    (by decide) (by decide)

/-- C1, counterexample: with identifier "bot1" and a live session
directory, compression resolves with "/data/RemoteAuth-bot1.zip", a save
is performed, yet no save event carries the path that compress returned —
the save receives the joined dataPath/sessionName instead. -/
theorem save_not_called_with_compress_output :
    (compressSession demoAuth demoFs oAllOk).value =
      Except.ok (archivePath demoAuth) ∧
    (storeRemoteSession demoAuth true demoFs oAllOk).trace.any isSaveEv =
      true ∧
    Event.storeSave (archivePath demoAuth) ∉
      (storeRemoteSession demoAuth true demoFs oAllOk).trace := by
  decide

/-- C1 (amended): in every backup cycle where staging and compression
succeed, the store's save is invoked with the joined dataPath/sessionName
path — the archive path compress returned stripped of its ".zip"
suffix — and that save strictly precedes every cleanup event (archive
unlink, staging removal). -/
theorem save_called_with_sessionPath_before_cleanup (a : AuthState)
    (e : Bool) (fs : FsState) (o : Oracle)
    (hp : isValidPath fs a.userDataDir = true) (hc : o.compressOk = true) :
    Event.storeSave (saveArg a) ∈ (storeRemoteSession a e fs o).trace ∧
    archivePath a = saveArg a ++ ".zip" ∧
    beforeP isSaveEv isCleanupEv (storeRemoteSession a e fs o).trace =
      true := by
  refine ⟨?_, ?_, ?_⟩
  · cases hs : o.saveOk <;> cases e <;>
      simp [storeRemoteSession, compressSession, hp, hc, hs, unlinkOp, rmOp]
  · simp [archivePath, saveArg, pathJoin, String.append_assoc]
  · cases hs : o.saveOk <;> cases e <;>
      simp [storeRemoteSession, compressSession, hp, hc, hs, unlinkOp, rmOp,
        beforeP, firstIdx, isSaveEv, isCleanupEv]

theorem save_called_with_sessionPath_before_cleanup_witness :
    Event.storeSave (saveArg demoAuth) ∈
      (storeRemoteSession demoAuth true demoFs oAllOk).trace ∧
    archivePath demoAuth = saveArg demoAuth ++ ".zip" ∧
    beforeP isSaveEv isCleanupEv
      (storeRemoteSession demoAuth true demoFs oAllOk).trace = true :=
  save_called_with_sessionPath_before_cleanup demoAuth true demoFs oAllOk
    (by decide) (by decide)

/-- C2, counterexample: in a recovery run with a stale local directory
present, the trace contains both a removal and a store query, but the
removal does not precede the query — the code queries the store (line
129) before force-removing the stale directory (line 131). -/
theorem removal_not_before_query :
    (extractRemoteSession demoAuth demoFs oAllOk).trace.any isRmEv =
      true ∧
    (extractRemoteSession demoAuth demoFs oAllOk).trace.any isQueryEv =
      true ∧
    beforeP isRmEv isQueryEv
      (extractRemoteSession demoAuth demoFs oAllOk).trace = false := by
  decide

/-- C2 (amended): every recovery run first queries the store for an
existing record and only then force-removes any stale local session
directory (bounded retries, errors swallowed); with a record present the
archive is fetched to dataPath/sessionName.zip and decompressed into the
now-clean local directory; with no record an empty local directory is
created and no fetch is attempted.  The trace equation fixes the exact
order of these steps. -/
theorem extract_flow_query_then_removal (a : AuthState) (fs : FsState)
    (o : Oracle) :
    (extractRemoteSession a fs o).trace =
      Event.storeQuery a.sessionName o.sessionExists ::
        ((if isValidPath fs a.userDataDir then
            [Event.fsRm a.userDataDir a.rmMaxRetries]
          else []) ++
         (if o.sessionExists then
            Event.storeExtract a.sessionName (archivePath a) ::
              (if o.extractOk then
                 Event.decompress (archivePath a) a.userDataDir ::
                   (if o.uncompressOk then
                      [Event.fsUnlink (archivePath a)]
                    else [])
               else [])
          else [Event.fsMkdir a.userDataDir])) ∧
    (o.sessionExists = false →
      isValidPath (extractRemoteSession a fs o).fs a.userDataDir = true ∧
      (extractRemoteSession a fs o).trace.any isExtractEv = false) := by
  cases hpe : isValidPath fs a.userDataDir <;>
  cases hse : o.sessionExists <;>
  cases hex : o.extractOk <;>
  cases hun : o.uncompressOk <;>
  cases hul : o.unlinkOk <;>
    simp [extractRemoteSession, unCompressSession, rmOp, hpe, hse, hex, hun,
      hul, isExtractEv, isValidPath_fsAdd]

theorem extract_flow_query_then_removal_witness :
    isValidPath (extractRemoteSession demoAuth [] oNoRecord).fs
      demoAuth.userDataDir = true ∧
    (extractRemoteSession demoAuth [] oNoRecord).trace.any isExtractEv =
      false :=
  (extract_flow_query_then_removal demoAuth [] oNoRecord).2 rfl

/-- C7, counterexample: a recovery whose fetched archive is corrupt
rejects, and the archive file is still on disk afterwards — the unlink in
unCompressSession runs only after a successful extraction. -/
theorem archive_survives_failed_decompress :
    isOkE (extractRemoteSession demoAuth demoFs oBadZip).outcome = false ∧
    archivePath demoAuth ∈
      (extractRemoteSession demoAuth demoFs oBadZip).fs := by
  decide

/-- C7 (amended): the archive is gone after every successfully consumed
operation — in a backup cycle whose compression and best-effort unlink
succeed the archive is absent regardless of the save outcome, and in a
recovery whose fetch, decompression and unlink succeed the archive is
absent; after a failed decompression, however, the archive file remains
on disk. -/
theorem archive_deleted_on_success (a : AuthState) (e : Bool)
    (fs : FsState) (o : Oracle) :
    (isValidPath fs a.userDataDir = true → o.compressOk = true →
      o.unlinkOk = true →
      archivePath a ∉ (storeRemoteSession a e fs o).fs) ∧
    (o.sessionExists = true → o.extractOk = true → o.uncompressOk = true →
      o.unlinkOk = true →
      archivePath a ∉ (extractRemoteSession a fs o).fs) := by
  constructor
  · intro hp hc hu
    cases hs : o.saveOk <;> cases hr : o.rmTempOk <;>
      simp [storeRemoteSession, compressSession, hp, hc, hu, hs, hr,
        unlinkOp, rmOp, fsRemoveFile, fsRemoveTree, List.mem_filter]
  · intro hse hex hun hu
    cases hpe : isValidPath fs a.userDataDir <;>
      simp [extractRemoteSession, unCompressSession, hse, hex, hun, hu,
        hpe, rmOp, fsRemoveFile, List.mem_filter]

theorem archive_deleted_on_success_witness :
    archivePath demoAuth ∉
      (extractRemoteSession demoAuth demoFs oAllOk).fs :=
  (archive_deleted_on_success demoAuth true demoFs oAllOk).2 rfl rfl rfl
    rfl

/-- C4, counterexample: a readiness signal with no remote record and a
first save that rejects — the save is attempted (after the delay) but the
rejection aborts afterAuthReady before the setInterval line, so the
periodic scheduler is never started. -/
theorem scheduler_not_started_when_first_save_fails :
    oSaveFail.sessionExists = false ∧
    (afterAuthReady demoAuth demoFs sched0 oSaveFail).trace.any isSaveEv =
      true ∧
    (afterAuthReady demoAuth demoFs sched0 oSaveFail).trace.any
      isSetIntervalEv = false ∧
    isOkE (afterAuthReady demoAuth demoFs sched0 oSaveFail).outcome =
      false := by
  decide

/-- C4 (amended): any save in afterAuthReady happens only after the fixed
60000 ms settle delay, never immediately; in the no-record branch with a
successful first cycle the save precedes the saved notification; and the
scheduler is started with the configured interval in both branches
provided the method does not reject — when the first save raises, no
interval timer is registered. -/
theorem first_save_after_settle_delay (a : AuthState) (fs : FsState)
    (s : SchedState) (o : Oracle) :
    ((afterAuthReady a fs s o).trace.any isSaveEv = true →
      beforeP isDelayEv isSaveEv (afterAuthReady a fs s o).trace =
        true) ∧
    (o.sessionExists = false → isValidPath fs a.userDataDir = true →
      o.compressOk = true → o.saveOk = true →
      beforeP isSaveEv isEmitEv (afterAuthReady a fs s o).trace = true) ∧
    (isOkE (afterAuthReady a fs s o).outcome = true →
      Event.setIntervalMs a.backupSyncIntervalMs ∈
        (afterAuthReady a fs s o).trace) ∧
    (isOkE (afterAuthReady a fs s o).outcome = false →
      (afterAuthReady a fs s o).trace.any isSetIntervalEv = false) := by
  cases hse : o.sessionExists <;>
  cases hpe : isValidPath fs a.userDataDir <;>
  cases hc : o.compressOk <;>
  cases hs : o.saveOk <;>
    simp [afterAuthReady, storeRemoteSession, compressSession, hse, hpe,
      hc, hs, unlinkOp, rmOp, beforeP, firstIdx, isSaveEv, isDelayEv,
      isEmitEv, isSetIntervalEv, isOkE]

theorem first_save_after_settle_delay_witness :
    beforeP isSaveEv isEmitEv
      (afterAuthReady demoAuth demoFs sched0 oNoRecord).trace = true :=
  (first_save_after_settle_delay demoAuth demoFs sched0 oNoRecord).2.1
    rfl (by decide) rfl rfl

/-- C9, counterexample: reaching the scheduler-start step twice (two
afterAuthReady runs while a record exists) leaves two active recurring
timers, not one, and the schedule state is changed — start is not a
no-op. -/
theorem double_start_leaves_two_timers :
    (afterAuthReady demoAuth demoFs
        (afterAuthReady demoAuth demoFs sched0 oAllOk).sched
        oAllOk).sched.timers.active.length = 2 ∧
    (afterAuthReady demoAuth demoFs
        (afterAuthReady demoAuth demoFs sched0 oAllOk).sched
        oAllOk).sched ≠
      (afterAuthReady demoAuth demoFs sched0 oAllOk).sched := by
  decide

/-- C9 (amended): the scheduler-start step — the unguarded
`setInterval` assignment — is not idempotent: a second start while
running registers an additional recurring timer and overwrites the stored
handle, and a later destroy cancels only the most recent timer, leaving
the first one active. -/
theorem second_start_stacks_timer (s : SchedState) :
    (startBackupSyncStep (startBackupSyncStep s)).timers.active.length =
      (startBackupSyncStep s).timers.active.length + 1 ∧
    (startBackupSyncStep (startBackupSyncStep s)).backupSync ≠
      (startBackupSyncStep s).backupSync ∧
    s.timers.nextId ∈
      (destroyStep
        (startBackupSyncStep (startBackupSyncStep s))).timers.active := by
  refine ⟨?_, ?_, ?_⟩ <;>
    simp [startBackupSyncStep, setIntervalOp, destroyStep,
      clearIntervalOp, List.mem_filter]

theorem second_start_stacks_timer_witness :
    (startBackupSyncStep (startBackupSyncStep sched0)).timers.active.length =
      (startBackupSyncStep sched0).timers.active.length + 1 ∧
    (startBackupSyncStep (startBackupSyncStep sched0)).backupSync ≠
      (startBackupSyncStep sched0).backupSync ∧
    sched0.timers.nextId ∈
      (destroyStep
        (startBackupSyncStep (startBackupSyncStep sched0))).timers.active :=
  second_start_stacks_timer sched0

/-- C8 (confirmed): for a session directory containing the three required
subdirectories, staging then compressing then decompressing into an empty
target reproduces exactly the contents of those three subdirectories and
nothing else. -/
theorem stage_compress_decompress_roundtrip (session : ContentMap)
    (c1 c2 c3 : Nat)
    (h1 : session.lookup "Default" = some c1)
    (h2 : session.lookup "IndexedDB" = some c2)
    (h3 : session.lookup "Local Storage" = some c3) :
    (∀ d ∈ requiredDirs,
      (decompressContents (compressContents (stageContents session []))
          []).lookup d = session.lookup d) ∧
    (∀ kv ∈ decompressContents (compressContents (stageContents session []))
        [], kv.1 ∈ requiredDirs) := by
  have hst : stageContents session [] =
      [("Default", c1), ("IndexedDB", c2), ("Local Storage", c3)] := by
    simp [stageContents, requiredDirs, h1, h2, h3, cmUpsert]
  have hdec :
      decompressContents (compressContents (stageContents session [])) [] =
        [("Default", c1), ("IndexedDB", c2), ("Local Storage", c3)] := by
    rw [hst]
    simp [decompressContents, compressContents, cmUpsert]
  constructor
  · intro d hd
    rw [hdec]
    have hd' : d = "Default" ∨ d = "IndexedDB" ∨ d = "Local Storage" := by
      simpa [requiredDirs] using hd
    rcases hd' with rfl | rfl | rfl <;>
      simp [List.lookup, h1, h2, h3]
  · intro kv hkv
    rw [hdec] at hkv
    have hkv' : kv = ("Default", c1) ∨ kv = ("IndexedDB", c2) ∨
        kv = ("Local Storage", c3) := by
      simpa using hkv
    rcases hkv' with rfl | rfl | rfl <;> simp [requiredDirs]

theorem stage_compress_decompress_roundtrip_witness :
    (decompressContents (compressContents (stageContents demoSession []))
        []).lookup "Default" = demoSession.lookup "Default" :=
  (stage_compress_decompress_roundtrip demoSession 1 2 3 rfl rfl rfl).1
    "Default" (by decide)

end RemoteAuthSpec
